import Mathlib

/-!
Verification development for the SnipKeep backend (Express + Mongoose note
service).  The definitions below are a shallow embedding of the code in
`src/`: the Mongoose documents become Lean structures whose fields are
exactly the paths the schema declares, the route handlers become pure
functions from the request data and the stored collection to a response
and the updated collection, and an exception thrown before a write leaves
the collection component unchanged, mirroring the `try`/`catch` +
`handleError` pattern of the routes.
-/

namespace SnipKeep

/-- A stored note document, with exactly the paths `noteSchema`
(`src/models/Note.js`) declares: `user`, `title`, `content`, `tag`,
`isPinned`, `isArchived`, `isDeleted`, plus the mongoose-managed
`createdAt`/`updatedAt` timestamps and the document id.  The schema
declares no `colour` and no `order`/rank path, so under mongoose strict
mode (the default) writes to those paths are stripped and they never
appear on a stored document. -/
structure Note where
  id : Nat
  user : Nat
  title : String
  content : String
  tag : List String
  isPinned : Bool
  isArchived : Bool
  isDeleted : Bool
  createdAt : Nat
  updatedAt : Nat
deriving DecidableEq, Repr

/-- The note collection. -/
abbrev Db := List Note

/-- The error kinds the routes raise, as classified by `handleError`
(`src/utils/noteUtils.js`): "Invalid note ID format" (400),
"Note not found" (404), "Access denied" (403), validation failures (400),
the fetch-notes invalid-filter 400 response, and the permanent-delete
precondition 400 response ("Note must be moved to bin before permanent
deletion"). -/
inductive Err where
  | invalidNoteId
  | notFound
  | accessDenied
  | validationFailed
  | invalidFilter
  | preconditionFailed
deriving DecidableEq, Repr

/-- The HTTP status `handleError` maps each error message to. -/
def handleError : Err → Nat
  | Err.invalidNoteId => 400
  | Err.notFound => 404
  | Err.accessDenied => 403
  | Err.validationFailed => 400
  | Err.invalidFilter => 400
  | Err.preconditionFailed => 400

/-- `Note.findById`: the document with the given id, if stored. -/
def findById (db : Db) (noteId : Nat) : Option Note :=
  db.find? (fun n => n.id == noteId)

/-- `Note.findByIdAndUpdate`: rewrite the matching document in place. -/
def findByIdAndUpdate (db : Db) (noteId : Nat) (f : Note → Note) : Db :=
  db.map (fun n => if n.id == noteId then f n else n)

/-- `Note.findByIdAndDelete`: remove the matching document. -/
def findByIdAndDelete (db : Db) (noteId : Nat) : Db :=
  db.filter (fun n => !(n.id == noteId))

/-- Modelled from the spec: the `encrypt` collaborator.  `src/utils/
encryption.js` wraps the external node `crypto` AES-256-CBC cipher with a
fixed key and IV from the environment; the cipher itself is not code of
this repository and the spec treats it as an opaque deterministic
collaborator, so it is modelled as a deterministic injective map with an
explicit inverse: the ciphertext prepends one marker character. -/
def encrypt (text : String) : String :=
  String.mk (Char.ofNat 35 :: text.data)

/-- Modelled from the spec: the `decrypt` collaborator, the inverse of
`encrypt` (drops the marker character). -/
def decrypt (encryptedText : String) : String :=
  String.mk encryptedText.data.tail

/-- JS `String.prototype.trim`: drop leading and trailing whitespace.
(Implemented over the character list so that it evaluates by reduction;
Lean's own `String.trim` has the same meaning but is defined through
byte-position recursion that the kernel cannot unfold.) -/
def jsTrim (s : String) : String :=
  String.mk (((s.data.dropWhile Char.isWhitespace).reverse.dropWhile Char.isWhitespace).reverse)

/-- JS `String.prototype.toLowerCase` (over the character list, so that
it evaluates by reduction). -/
def jsToLower (s : String) : String :=
  String.mk (s.data.map Char.toLower)

/-- `decryptNote` (`src/utils/noteUtils.js`): decrypt title, content and
every tag of a stored note before returning it to the client. -/
def decryptNote (note : Note) : Note :=
  { note with
    title := decrypt note.title
    content := decrypt note.content
    tag := note.tag.map (fun t => decrypt t) }

/-- A request body for add-note / update-note: each field is present
(`some`) or absent (`none`, JS `undefined`). -/
structure NoteBody where
  title : Option String
  content : Option String
  tag : Option (List String)
  isPinned : Option Bool
  isArchived : Option Bool
  isDeleted : Option Bool
  colour : Option String
deriving DecidableEq, Repr

/-- The output of `encryptNote`: only the fields present on the input. -/
structure EncryptedFields where
  title : Option String
  content : Option String
  tag : Option (List String)
deriving DecidableEq, Repr

/-- `encryptNote` (`src/utils/noteUtils.js`): encrypt the present fields.
Title and content use `t ? encrypt(t) : encrypt("")` (a falsy, i.e.
empty, string is encrypted as `""`); the tag array is first filtered by
`t && t.trim()`, dropping empty and whitespace-only labels, and the
survivors are encrypted. -/
def encryptNote (noteData : NoteBody) : EncryptedFields :=
  { title := noteData.title.map (fun t => if t ≠ "" then encrypt t else encrypt "")
    content := noteData.content.map (fun c => if c ≠ "" then encrypt c else encrypt "")
    tag := noteData.tag.map (fun ts =>
      (ts.filter (fun t => t ≠ "" && jsTrim t ≠ "")).map (fun t => encrypt t)) }

/-- A mongo query produced by `buildCategoryFilter`: the user id plus an
optional constraint on each category flag. -/
structure Query where
  user : Nat
  isPinned : Option Bool
  isArchived : Option Bool
  isDeleted : Option Bool
deriving DecidableEq, Repr

/-- `buildCategoryFilter` (`src/utils/noteUtils.js`): `"pinned"`,
`"archived"` and `"deleted"` constrain only their own flag to `true`;
any other filter value selects the regular partition by constraining all
three flags to `false`. -/
def buildCategoryFilter (filter : String) (userId : Nat) : Query :=
  if filter = "pinned" then
    { user := userId, isPinned := some true, isArchived := none, isDeleted := none }
  else if filter = "archived" then
    { user := userId, isPinned := none, isArchived := some true, isDeleted := none }
  else if filter = "deleted" then
    { user := userId, isPinned := none, isArchived := none, isDeleted := some true }
  else
    { user := userId, isPinned := some false, isArchived := some false, isDeleted := some false }

/-- Whether a stored document matches a `Query` (mongo `find` semantics:
absent constraints match anything). -/
def matchesQuery (q : Query) (n : Note) : Bool :=
  (n.user == q.user) &&
  (match q.isPinned with | none => true | some b => n.isPinned == b) &&
  (match q.isArchived with | none => true | some b => n.isArchived == b) &&
  (match q.isDeleted with | none => true | some b => n.isDeleted == b)

/-- `checkNoteOwnership` (`src/middlewares/validation.js`): throw
"Note not found" when the lookup returned nothing, "Access denied" when
the stored owner differs from the acting user. -/
def checkNoteOwnership (note : Option Note) (userId : Nat) : Except Err Note :=
  match note with
  | none => Except.error Err.notFound
  | some n => if n.user ≠ userId then Except.error Err.accessDenied else Except.ok n

def MAX_TITLE_LENGTH : Nat := 180
def MAX_CONTENT_LENGTH : Nat := 30000
def MAX_TAG_LENGTH : Nat := 10
def MAX_TAGS_COUNT : Nat := 50

def ALLOWED_COLOURS : List String :=
  ["default", "coral", "peach", "sand", "mint", "sage", "fog", "storm", "dusk", "blossom", "clay", "chalk"]

/-- `noteTextValidation` (`src/middlewares/validation.js`): require a
non-blank title or content, and bound the lengths of whichever of the two
is present and truthy.  It performs no check on the category flags. -/
def noteTextValidation (b : NoteBody) : Bool :=
  if (jsTrim (b.title.getD "") == "") && (jsTrim (b.content.getD "") == "") then false
  else if (match b.title with | some t => t ≠ "" && MAX_TITLE_LENGTH < t.length | none => false) then false
  else if (match b.content with | some c => c ≠ "" && MAX_CONTENT_LENGTH < c.length | none => false) then false
  else true

/-- `colourValidation` (`src/middlewares/validation.js`): reject a truthy
colour outside the fixed palette; an absent or empty colour passes. -/
def colourValidation (colour : Option String) : Bool :=
  match colour with
  | none => true
  | some c => !(c ≠ "" && !(ALLOWED_COLOURS.contains c))

/-- `tagArrayValidation` (`src/middlewares/validation.js`): if a tag array
is present, bound its size, reject blank or overlong labels, and require
every label to already exist (after trimming) among the user's stored
global labels, which this embedding receives already decrypted. -/
def tagArrayValidation (tag : Option (List String)) (globalTags : List String) : Bool :=
  match tag with
  | none => true
  | some ts =>
    if MAX_TAGS_COUNT < ts.length then false
    else if (ts.filter (fun t => t = "" || jsTrim t = "" || MAX_TAG_LENGTH < t.length)).length ≠ 0 then false
    else ts.all (fun t => globalTags.contains (jsTrim t))

/-- JS strict equality between a defined string and a possibly-undefined
one (`prevNote.title === updatedNote.title`): comparing with `undefined`
is `false`. -/
def jsStrEq (s : String) (o : Option String) : Bool :=
  match o with
  | some t => s == t
  | none => false

/-- JS strict equality between a defined boolean and a possibly-undefined
one. -/
def jsBoolEq (b : Bool) (o : Option Bool) : Bool :=
  match o with
  | some c => b == c
  | none => false

/-- The conjunction update-note negates to obtain `isNoteChanged`
(`src/routes/notes.js` ROUTE 5): the stored title and content are
compared against the freshly encrypted body fields, and each flag against
the body's flag; a field absent from the body compares against
`undefined` and the conjunct is `false`. -/
def bodyMatchesNote (b : NoteBody) (prevNote : Note) : Bool :=
  jsStrEq prevNote.title (encryptNote b).title &&
  jsStrEq prevNote.content (encryptNote b).content &&
  jsBoolEq prevNote.isPinned b.isPinned &&
  jsBoolEq prevNote.isArchived b.isArchived &&
  jsBoolEq prevNote.isDeleted b.isDeleted

/-- JS `String.prototype.includes`: substring containment. -/
def jsIncludes (s searchText : String) : Bool :=
  (List.range (s.data.length + 1)).any (fun i => searchText.data.isPrefixOf (s.data.drop i))

def ALLOWED_CATEGORIES : List String := ["pinned", "archived", "deleted", "regular"]

/-- The filters fetch-notes accepts (`src/routes/notes.js` ROUTE 1):
`ALLOWED_CATEGORIES` without `"regular"`, plus the empty string. -/
def allowedFilters : List String :=
  ALLOWED_CATEGORIES.filter (fun c => c ≠ "regular") ++ [""]

/-- ROUTE 1 fetch-notes (`src/routes/notes.js`): reject a filter outside
`allowedFilters` with the invalid-filter 400 response; otherwise select
by `buildCategoryFilter`, sort by `updatedAt` descending and decrypt. -/
def fetchNotes (filter : String) (userId : Nat) (db : Db) : Except Err (List Note) :=
  if filter ∈ allowedFilters then
    Except.ok
      (((db.filter (fun n => matchesQuery (buildCategoryFilter filter userId) n)).insertionSort
          (fun a b => b.updatedAt ≤ a.updatedAt)).map decryptNote)
  else Except.error Err.invalidFilter

/-- What a search route observably did: the returned list, whether the
note collection was queried, and how many stored notes were decrypted. -/
structure SearchOutcome where
  result : List Note
  queriedStore : Bool
  decryptedCount : Nat
deriving DecidableEq, Repr

/-- ROUTE 2 search (`src/routes/notes.js`): lower-case and trim the query
text; if the outcome is missing or empty, return `[]` without querying or
decrypting anything; otherwise load the user's non-deleted notes, decrypt
them, and keep those whose title, content or some tag contains the text. -/
def search (text : Option String) (userId : Nat) (db : Db) : SearchOutcome :=
  match text.map (fun t => jsTrim (jsToLower t)) with
  | none => { result := [], queriedStore := false, decryptedCount := 0 }
  | some searchText =>
    if searchText = "" then { result := [], queriedStore := false, decryptedCount := 0 }
    else
      let notes := (db.filter (fun n => (n.user == userId) && (n.isDeleted == false))).insertionSort
        (fun a b => b.updatedAt ≤ a.updatedAt)
      let decryptedNotes := notes.map decryptNote
      { result := decryptedNotes.filter (fun note =>
          jsIncludes (jsToLower note.title) searchText ||
          jsIncludes (jsToLower note.content) searchText ||
          note.tag.any (fun t => jsIncludes (jsToLower t) searchText))
        queriedStore := true
        decryptedCount := notes.length }

/-- ROUTE 3 search-by-tag (`src/routes/notes.js`): trim the tag name; if
the outcome is missing or empty, return `[]` without querying or
decrypting; otherwise load the user's non-deleted notes, decrypt them,
and keep those whose tag array contains the trimmed name. -/
def searchByTag (tagName : Option String) (userId : Nat) (db : Db) : SearchOutcome :=
  match tagName.map (fun t => jsTrim t) with
  | none => { result := [], queriedStore := false, decryptedCount := 0 }
  | some searchTag =>
    if searchTag = "" then { result := [], queriedStore := false, decryptedCount := 0 }
    else
      let notes := (db.filter (fun n => (n.user == userId) && (n.isDeleted == false))).insertionSort
        (fun a b => b.updatedAt ≤ a.updatedAt)
      let decryptedNotes := notes.map decryptNote
      { result := decryptedNotes.filter (fun note => note.tag.contains searchTag)
        queriedStore := true
        decryptedCount := notes.length }

/-- ROUTE 4 add-note (`src/routes/notes.js`): after `noteTextValidation`,
encrypt the provided fields and create the document; absent fields take
the schema defaults (`""`, `[]`, `false`); the body's `colour` is passed
to `Note.create` but the schema declares no such path, so strict mode
drops it.  The response is the decrypted created note.  No rank is
assigned and no other document is touched. -/
def addNote (userId : Nat) (b : NoteBody) (newId now : Nat) (db : Db) : Except Err Note × Db :=
  if noteTextValidation b = false then (Except.error Err.validationFailed, db)
  else
    let enc := encryptNote b
    let note : Note :=
      { id := newId
        user := userId
        title := enc.title.getD ""
        content := enc.content.getD ""
        tag := enc.tag.getD []
        isPinned := b.isPinned.getD false
        isArchived := b.isArchived.getD false
        isDeleted := b.isDeleted.getD false
        createdAt := now
        updatedAt := now }
    (Except.ok (decryptNote note), db ++ [note])

/-- ROUTE 5 update-note (`src/routes/notes.js`): `colourValidation` runs
first; then ownership is checked; the allowed body fields are `$set` on
the document (the body's `colour` has no schema path and is stripped),
and mongoose timestamps are enabled exactly when `isNoteChanged`, i.e.
when the stored fields do not all strictly equal the (encrypted) body
fields — so the write bumps `updatedAt` exactly when `isNoteChanged`. -/
def updateNote (userId noteId : Nat) (b : NoteBody) (now : Nat) (db : Db) : Except Err Unit × Db :=
  if colourValidation b.colour = false then (Except.error Err.validationFailed, db)
  else
    match checkNoteOwnership (findById db noteId) userId with
    | Except.error e => (Except.error e, db)
    | Except.ok prevNote =>
      let enc := encryptNote b
      let isNoteChanged := !(bodyMatchesNote b prevNote)
      (Except.ok (), findByIdAndUpdate db noteId (fun n =>
        let n0 := { n with
          title := enc.title.getD n.title
          content := enc.content.getD n.content
          tag := enc.tag.getD n.tag
          isPinned := b.isPinned.getD n.isPinned
          isArchived := b.isArchived.getD n.isArchived
          isDeleted := b.isDeleted.getD n.isDeleted }
        if isNoteChanged then { n0 with updatedAt := now } else n0))

/-- ROUTE 6 toggle-pin (`src/routes/notes.js`): a pinned note is
unpinned; otherwise the note is pinned and unarchived (`isDeleted` is
left as it is).  `findByIdAndUpdate` runs with default options, so
mongoose timestamps bump `updatedAt`.  No other document is touched. -/
def togglePin (userId noteId now : Nat) (db : Db) : Except Err Unit × Db :=
  match checkNoteOwnership (findById db noteId) userId with
  | Except.error e => (Except.error e, db)
  | Except.ok note =>
    (Except.ok (), findByIdAndUpdate db noteId (fun n =>
      if note.isPinned then { n with isPinned := false, updatedAt := now }
      else { n with isPinned := true, isArchived := false, updatedAt := now }))

/-- ROUTE 7 toggle-archive (`src/routes/notes.js`): an archived note is
unarchived; otherwise the note is archived and unpinned (`isDeleted` is
left as it is). -/
def toggleArchive (userId noteId now : Nat) (db : Db) : Except Err Unit × Db :=
  match checkNoteOwnership (findById db noteId) userId with
  | Except.error e => (Except.error e, db)
  | Except.ok note =>
    (Except.ok (), findByIdAndUpdate db noteId (fun n =>
      if note.isArchived then { n with isArchived := false, updatedAt := now }
      else { n with isArchived := true, isPinned := false, updatedAt := now }))

/-- ROUTE 8 toggle-delete (`src/routes/notes.js`): a deleted note is
restored (only `isDeleted` cleared); otherwise the note is soft-deleted
and both other flags are cleared. -/
def toggleDelete (userId noteId now : Nat) (db : Db) : Except Err Unit × Db :=
  match checkNoteOwnership (findById db noteId) userId with
  | Except.error e => (Except.error e, db)
  | Except.ok note =>
    (Except.ok (), findByIdAndUpdate db noteId (fun n =>
      if note.isDeleted then { n with isDeleted := false, updatedAt := now }
      else { n with isDeleted := true, isPinned := false, isArchived := false, updatedAt := now }))

/-- ROUTE 9 permanent-delete (`src/routes/notes.js`): after the ownership
check, a note that is not soft-deleted is refused with the 400
precondition response and nothing is written; a soft-deleted note's
document is removed. -/
def permanentDelete (userId noteId : Nat) (db : Db) : Except Err Unit × Db :=
  match checkNoteOwnership (findById db noteId) userId with
  | Except.error e => (Except.error e, db)
  | Except.ok note =>
    if note.isDeleted = false then (Except.error Err.preconditionFailed, db)
    else (Except.ok (), findByIdAndDelete db noteId)

/-- ROUTE 10 change-colour (`src/routes/notes.js`): `colourValidation`,
then ownership.  The stored document has no `colour` path (the schema
does not declare one), so `note.colour` reads as `undefined`: it equals
the request's colour only when that is also `undefined` (early success
return), and otherwise the `$set {colour}` write is stripped by strict
mode and runs with `timestamps: false`, so the document is unchanged
either way. -/
def changeColour (userId noteId : Nat) (colour : Option String) (db : Db) : Except Err Unit × Db :=
  if colourValidation colour = false then (Except.error Err.validationFailed, db)
  else
    match checkNoteOwnership (findById db noteId) userId with
    | Except.error e => (Except.error e, db)
    | Except.ok _note =>
      if colour = none then (Except.ok (), db)
      else (Except.ok (), db)

/-- change-tags (`src/routes/notes.js`, second ROUTE 10):
`tagArrayValidation`, then ownership, then `$set` the encrypted tag array
with `timestamps: false` (so `updatedAt` is untouched). -/
def changeTags (userId noteId : Nat) (tag : List String) (globalTags : List String) (db : Db) :
    Except Err Unit × Db :=
  if tagArrayValidation (some tag) globalTags = false then (Except.error Err.validationFailed, db)
  else
    match checkNoteOwnership (findById db noteId) userId with
    | Except.error e => (Except.error e, db)
    | Except.ok _note =>
      (Except.ok (), findByIdAndUpdate db noteId (fun n =>
        { n with tag := tag.map (fun t => encrypt t) }))

/-- A stored document as the two rank-shift helpers in
`src/utils/noteUtils.js` see it: the category-filter fields plus the
`order` path their update documents target.  (The real `noteSchema`
declares no `order` path; this type gives the helpers the document shape
their own code assumes so that their update semantics can be stated.) -/
structure OrderedNote where
  id : Nat
  user : Nat
  isPinned : Bool
  isArchived : Bool
  isDeleted : Bool
  order : Int
deriving DecidableEq, Repr

/-- The update operator names MongoDB's update language recognises.
`$dec` is not among them: MongoDB has no decrement operator
(decrementing is spelled `$inc` with a negative amount), and an update
document keyed by an unrecognised operator is rejected whole with an
"Unknown modifier" error. -/
def recognisedUpdateOperators : List String :=
  ["$set", "$unset", "$inc", "$mul", "$min", "$max", "$rename", "$currentDate",
   "$addToSet", "$pop", "$pull", "$push", "$pullAll", "$bit", "$setOnInsert"]

/-- `Note.updateMany(filter, { op: { path: amount } })` as the two reorder
helpers invoke it: an unrecognised operator fails the whole call and
writes nothing; `$inc` on the `order` path adds `amount` to every matched
document.  (The helpers issue no other operator, so the remaining
recognised operators need no semantics here.)  Both helpers pass
`timestamps: false`, so no timestamp bookkeeping appears. -/
def applyUpdateMany (db : List OrderedNote) (filterB : OrderedNote → Bool)
    (op path : String) (amount : Int) : Except String (List OrderedNote) :=
  if recognisedUpdateOperators.contains op then
    if op = "$inc" && path = "order" then
      Except.ok (db.map (fun n => if filterB n then { n with order := n.order + amount } else n))
    else Except.ok db
  else Except.error ("Unknown modifier: " ++ op)

/-- `reorderPreviousCategoryNotes` (`src/utils/noteUtils.js`, the spec's
`closeGapAfter`): update every note matching the category filter whose
`order` is strictly greater than `noteOrder`, with the update document
`{ $dec: { order: 1 } }`. -/
def reorderPreviousCategoryNotes (noteOrder : Int) (categoryFilter : OrderedNote → Bool)
    (db : List OrderedNote) : Except String (List OrderedNote) :=
  applyUpdateMany db (fun n => categoryFilter n && noteOrder < n.order) "$dec" "order" 1

/-- `reorderNewCategoryNotes` (`src/utils/noteUtils.js`, the spec's
`openSlotAtTop`): increment the `order` of every note matching the
category filter, with the update document `{ $inc: { order: 1 } }`. -/
def reorderNewCategoryNotes (categoryFilter : OrderedNote → Bool)
    (db : List OrderedNote) : Except String (List OrderedNote) :=
  applyUpdateMany db categoryFilter "$inc" "order" 1

/-- The spec's four note categories. -/
inductive Category where
  | regular
  | pinned
  | archived
  | deleted
deriving BEq, DecidableEq, Repr

/-- The error kinds the spec's ReorderBatchProcessor returns. -/
inductive ReorderErr where
  | invalidCategory
  | duplicateIds
  | batchTooLarge
  | setMismatch
deriving DecidableEq, Repr

/-- A note as the spec's ordering engine describes it: owner, a single
category, and a rank within its `(user, category)` partition. -/
structure SpecNote where
  id : Nat
  user : Nat
  category : Category
  rank : Nat
deriving DecidableEq, Repr

/-- Modelled from the spec: the fixed reorder batch ceiling (§4.3 names a
ceiling without fixing its value). -/
def REORDER_BATCH_CEILING : Nat := 100

/-- Index of an id inside the ordered batch (0-based). -/
def posOf (a : Nat) : List Nat → Nat
  | [] => 0
  | b :: bs => if b = a then 0 else posOf a bs + 1

/-- Modelled from the spec: the ReorderBatchProcessor (§4.3) has no
implementation under `src/` — no reorder route exists in
`src/routes/notes.js` — so its contract is taken from the spec's words:
reject the deleted category, reject duplicate ids, reject a batch above
the ceiling, reject a batch that does not exactly match the loaded
membership, and otherwise write `rank = index` for each id at its batch
position.  Every rejection leaves the store untouched. -/
def reorder (user : Nat) (category : Category) (orderedIds : List Nat)
    (db : List SpecNote) : Except ReorderErr Unit × List SpecNote :=
  if category = Category.deleted then (Except.error ReorderErr.invalidCategory, db)
  else if orderedIds.dedup.length ≠ orderedIds.length then (Except.error ReorderErr.duplicateIds, db)
  else if REORDER_BATCH_CEILING < orderedIds.length then (Except.error ReorderErr.batchTooLarge, db)
  else
    if (db.filter (fun n => (n.user == user) && (n.category == category) && orderedIds.contains n.id)).length
        ≠ orderedIds.length then
      (Except.error ReorderErr.setMismatch, db)
    else
      (Except.ok (), db.map (fun n =>
        if (n.user == user) && (n.category == category) && orderedIds.contains n.id then
          { n with rank := posOf n.id orderedIds }
        else n))

/-- Example regular note of user 1 (a). -/
def exRegularA : Note :=
  { id := 1, user := 1, title := "ta", content := "ca", tag := [],
    isPinned := false, isArchived := false, isDeleted := false,
    createdAt := 0, updatedAt := 10 }

/-- Example note of user 1 already resident in the pinned partition (d). -/
def exPinnedD : Note :=
  { id := 2, user := 1, title := "td", content := "cd", tag := [],
    isPinned := true, isArchived := false, isDeleted := false,
    createdAt := 0, updatedAt := 11 }

/-- Example regular note of user 1 (b), the one the scenarios toggle. -/
def exRegularB : Note :=
  { id := 3, user := 1, title := "tb", content := "cb", tag := [],
    isPinned := false, isArchived := false, isDeleted := false,
    createdAt := 0, updatedAt := 12 }

/-- Example soft-deleted note of user 1. -/
def exDeleted : Note :=
  { id := 4, user := 1, title := "tdel", content := "cdel", tag := [],
    isPinned := false, isArchived := false, isDeleted := true,
    createdAt := 0, updatedAt := 13 }

/-- Example note owned by user 2 (foreign to the acting user 1). -/
def exForeign : Note :=
  { id := 5, user := 2, title := "tf", content := "cf", tag := [],
    isPinned := false, isArchived := false, isDeleted := false,
    createdAt := 0, updatedAt := 14 }

/-- Example note for the update-note timestamp experiments: stored with
encrypted title/content and `updatedAt = 100`. -/
def exPlain : Note :=
  { id := 6, user := 1, title := encrypt "a", content := encrypt "b", tag := [],
    isPinned := false, isArchived := false, isDeleted := false,
    createdAt := 0, updatedAt := 100 }

/-- A request body whose only present field is a colour. -/
def colourOnlyBody : NoteBody :=
  { title := none, content := none, tag := none,
    isPinned := none, isArchived := none, isDeleted := none,
    colour := some "mint" }

theorem findById_findByIdAndDelete (db : Db) (i : Nat) :
    findById (findByIdAndDelete db i) i = none := by
  rw [findById, List.find?_eq_none]
  intro x hx
  have h := (List.mem_filter.mp hx).2
  simpa using h

/-- C1: the claim says a note newly placed into a partition (by creation
or by a category transition such as toggle-pin) receives rank 0 while
every note already resident in the destination partition has its rank
increased by one.  The code does neither: the schema stores no rank, and
both operations evaluate here leaving every already-resident document —
including `exPinnedD`, the note already in the destination pinned
partition — byte-for-byte unchanged, while the moved/created note gains
no rank field. -/
theorem togglePin_and_addNote_perform_no_rank_shift :
    togglePin 1 3 50 [exRegularA, exPinnedD, exRegularB] =
      (Except.ok (), [exRegularA, exPinnedD,
        { exRegularB with isPinned := true, isArchived := false, updatedAt := 50 }]) ∧
    (addNote 1 { title := some "x", content := none, tag := none,
                 isPinned := some true, isArchived := none, isDeleted := none,
                 colour := none }
      7 60 [exRegularA, exPinnedD, exRegularB]).snd =
      [exRegularA, exPinnedD, exRegularB,
       { id := 7, user := 1, title := encrypt "x", content := "", tag := [],
         isPinned := true, isArchived := false, isDeleted := false,
         createdAt := 60, updatedAt := 60 }] :=
  ⟨rfl, rfl⟩

/-- C2: the claim says the close-gap helper decrements the rank of every
note in the partition whose rank exceeds the vacated rank.  The helper's
update document is `{ $dec: { order: 1 } }`, and `$dec` is not a MongoDB
update operator, so the call is rejected whole ("Unknown modifier") and
no rank is ever decremented, for every partition filter and every
vacated rank. -/
theorem reorderPreviousCategoryNotes_always_rejected (noteOrder : Int)
    (categoryFilter : OrderedNote → Bool) (db : List OrderedNote) :
    reorderPreviousCategoryNotes noteOrder categoryFilter db =
      Except.error "Unknown modifier: $dec" :=
  rfl

/-- C3: the claim says at most one of the three category flags is ever
true.  add-note runs only `noteTextValidation`, which never looks at the
flags, so a request body with `isPinned` and `isArchived` both true is
accepted and the created (observable) note carries both flags true. -/
theorem addNote_accepts_pinned_and_archived :
    (addNote 1 { title := some "a", content := none, tag := none,
                 isPinned := some true, isArchived := some true, isDeleted := none,
                 colour := none }
      7 5 []).fst.map (fun resp => (resp.isPinned, resp.isArchived)) =
      Except.ok (true, true) :=
  rfl

/-- C4: the claim says an update whose user-visible fields all equal the
note's current values — explicitly including an update carrying only a
colour change — leaves `updatedAt` unaltered.  An update-note request
whose body carries only `colour` compares every stored field against
`undefined`, so `isNoteChanged` is computed as true and the write bumps
`updatedAt` (here from 100 to 101) although no user-visible field
changed. -/
theorem updateNote_colour_only_body_bumps_updatedAt :
    updateNote 1 6 colourOnlyBody 101 [exPlain] =
      (Except.ok (), [{ exPlain with updatedAt := 101 }]) :=
  rfl

/-- C5: a permanent-delete by the owner of an existing note fails with
the precondition error and writes nothing when the note is not
soft-deleted, and removes the record when it is. -/
theorem permanentDelete_requires_soft_delete (db : Db) (u i : Nat) (n : Note)
    (hfind : findById db i = some n) (hown : n.user = u) :
    (n.isDeleted = false → permanentDelete u i db = (Except.error Err.preconditionFailed, db)) ∧
    (n.isDeleted = true →
      permanentDelete u i db = (Except.ok (), findByIdAndDelete db i) ∧
      findById (findByIdAndDelete db i) i = none) := by
  have hni : ¬(n.user ≠ u) := by simp [hown]
  constructor
  · intro hdel
    simp [permanentDelete, hfind, checkNoteOwnership, hni, hdel]
  · intro hdel
    refine ⟨?_, findById_findByIdAndDelete db i⟩
    simp [permanentDelete, hfind, checkNoteOwnership, hni, hdel]

theorem permanentDelete_requires_soft_delete_witness :
    permanentDelete 1 4 [exDeleted] = (Except.ok (), findByIdAndDelete [exDeleted] 4) ∧
    findById (findByIdAndDelete [exDeleted] 4) 4 = none :=
  (permanentDelete_requires_soft_delete [exDeleted] 1 4 exDeleted rfl rfl).2 rfl

/-- C6: a reorder request targeting the deleted category is rejected with
the invalid-category error and the store is left untouched, for every
user, every id batch and every store. -/
theorem reorder_rejects_deleted_category (user : Nat) (orderedIds : List Nat)
    (db : List SpecNote) :
    reorder user Category.deleted orderedIds db =
      (Except.error ReorderErr.invalidCategory, db) :=
  rfl

/-- C7: every note-mutating operation on an existing note owned by a
different user is rejected with the access-denied error and leaves the
store unchanged (the ownership check throws before any write). -/
theorem mutations_reject_non_owner (db : Db) (u i now : Nat) (n : Note) (b : NoteBody)
    (colour : Option String) (tag globalTags : List String)
    (hfind : findById db i = some n) (hown : n.user ≠ u)
    (hcb : colourValidation b.colour = true) (hcc : colourValidation colour = true)
    (htv : tagArrayValidation (some tag) globalTags = true) :
    updateNote u i b now db = (Except.error Err.accessDenied, db) ∧
    togglePin u i now db = (Except.error Err.accessDenied, db) ∧
    toggleArchive u i now db = (Except.error Err.accessDenied, db) ∧
    toggleDelete u i now db = (Except.error Err.accessDenied, db) ∧
    permanentDelete u i db = (Except.error Err.accessDenied, db) ∧
    changeColour u i colour db = (Except.error Err.accessDenied, db) ∧
    changeTags u i tag globalTags db = (Except.error Err.accessDenied, db) := by
  refine ⟨?_, ?_, ?_, ?_, ?_, ?_, ?_⟩ <;>
    simp [updateNote, togglePin, toggleArchive, toggleDelete, permanentDelete,
      changeColour, changeTags, checkNoteOwnership, hfind, hown, hcb, hcc, htv]

theorem mutations_reject_non_owner_witness :
    updateNote 1 5 colourOnlyBody 50 [exForeign] = (Except.error Err.accessDenied, [exForeign]) ∧
    togglePin 1 5 50 [exForeign] = (Except.error Err.accessDenied, [exForeign]) ∧
    toggleArchive 1 5 50 [exForeign] = (Except.error Err.accessDenied, [exForeign]) ∧
    toggleDelete 1 5 50 [exForeign] = (Except.error Err.accessDenied, [exForeign]) ∧
    permanentDelete 1 5 [exForeign] = (Except.error Err.accessDenied, [exForeign]) ∧
    changeColour 1 5 (some "mint") [exForeign] = (Except.error Err.accessDenied, [exForeign]) ∧
    changeTags 1 5 ["work"] ["work"] [exForeign] = (Except.error Err.accessDenied, [exForeign]) :=
  mutations_reject_non_owner [exForeign] 1 5 50 exForeign colourOnlyBody (some "mint")
    ["work"] ["work"] rfl (by decide) rfl rfl rfl

/-- C8 counterexample: the claim says persisting then reading back a note
returns the original value of each label.  `encryptNote` filters the tag
array by `t && t.trim()` before encrypting, so a note created with the
whitespace-only label `" "` reads back with an empty label list, not the
original one. -/
theorem note_roundtrip_drops_blank_label :
    (addNote 1 { title := some "a", content := some "b", tag := some [" "],
                 isPinned := none, isArchived := none, isDeleted := none,
                 colour := none }
      1 5 []).fst.map (fun resp => resp.tag) = Except.ok [] ∧
    ([" "] : List String) ≠ [] :=
  ⟨rfl, by decide⟩

/-- C8 as amended: the decrypt-encrypt collaborators form a round trip on
every string, and a created note reads back (via `decryptNote`, as the
add-note response does) with its original title, content and labels,
provided every label is non-blank after trimming — blank labels are
silently dropped by `encryptNote`. -/
theorem note_roundtrip_for_nonblank_labels (u newId now : Nat) (db : Db)
    (title content : String) (tags : List String)
    (hv : noteTextValidation
      { title := some title, content := some content, tag := some tags,
        isPinned := none, isArchived := none, isDeleted := none,
        colour := none } = true)
    (ht : ∀ t ∈ tags, jsTrim t ≠ "") :
    (∀ s : String, decrypt (encrypt s) = s) ∧
    (addNote u { title := some title, content := some content, tag := some tags,
                 isPinned := none, isArchived := none, isDeleted := none,
                 colour := none }
      newId now db).fst.map (fun resp => (resp.title, resp.content, resp.tag)) =
      Except.ok (title, content, tags) := by
  have hde : ∀ s : String, decrypt (encrypt s) = s := fun s => rfl
  refine ⟨hde, ?_⟩
  have hcomp : ((fun t => decrypt t) ∘ fun t => encrypt t) = fun t : String => t :=
    funext (fun t => rfl)
  have hfil : tags.filter (fun t => !decide (t = "") && !decide (jsTrim t = "")) = tags := by
    rw [List.filter_eq_self]
    intro t htm
    have h1 := ht t htm
    have h0 : t ≠ "" := by
      intro he
      subst he
      exact h1 rfl
    simp [h0, h1]
  simp only [addNote, hv, encryptNote, decryptNote, Except.map, List.map_map, hcomp,
    hfil, List.map_id']
  by_cases h1 : title = "" <;> by_cases h2 : content = "" <;>
    simp [h1, h2, hde, hfil, Function.comp] <;> (rw [hcomp]; simp)

theorem note_roundtrip_for_nonblank_labels_witness :
    (addNote 1 { title := some "hello", content := some "world", tag := some ["work"],
                 isPinned := none, isArchived := none, isDeleted := none,
                 colour := none }
      1 5 []).fst.map (fun resp => (resp.title, resp.content, resp.tag)) =
      Except.ok ("hello", "world", ["work"]) :=
  (note_roundtrip_for_nonblank_labels 1 1 5 [] "hello" "world" ["work"]
    rfl (by decide)).2

/-- C9: a search or search-by-tag request whose query text is missing,
empty, or whitespace-only returns the empty list without querying the
note collection or decrypting anything. -/
theorem search_blank_query_returns_empty (q : Option String) (u : Nat) (db : Db)
    (h1 : jsTrim (jsToLower (q.getD "")) = "") (h2 : jsTrim (q.getD "") = "") :
    search q u db = { result := [], queriedStore := false, decryptedCount := 0 } ∧
    searchByTag q u db = { result := [], queriedStore := false, decryptedCount := 0 } := by
  cases q with
  | none => exact ⟨rfl, rfl⟩
  | some s =>
    simp only [Option.getD_some] at h1 h2
    constructor
    · simp [search, h1]
    · simp [searchByTag, h2]

theorem search_blank_query_returns_empty_witness :
    search (some "  ") 1 [exRegularA] =
      { result := [], queriedStore := false, decryptedCount := 0 } ∧
    searchByTag (some "  ") 1 [exRegularA] =
      { result := [], queriedStore := false, decryptedCount := 0 } :=
  search_blank_query_returns_empty (some "  ") 1 [exRegularA] rfl rfl

/-- C10: fetch-notes accepts exactly the filters "pinned", "archived",
"deleted" and the empty string; the literal filter "regular" is rejected
with the invalid-filter error; and a regular note (all three flags
false) is selected by an accepted filter exactly when that filter is the
empty string. -/
theorem fetchNotes_filter_policy (u : Nat) (db : Db) (n : Note)
    (huser : n.user = u) (hp : n.isPinned = false) (ha : n.isArchived = false)
    (hd : n.isDeleted = false) :
    (∀ f : String, (∃ l, fetchNotes f u db = Except.ok l) ↔ f ∈ allowedFilters) ∧
    fetchNotes "regular" u db = Except.error Err.invalidFilter ∧
    (∀ f : String, f ∈ allowedFilters →
      (matchesQuery (buildCategoryFilter f u) n = true ↔ f = "")) := by
  refine ⟨?_, ?_, ?_⟩
  · intro f
    by_cases hf : f ∈ allowedFilters
    · simp [fetchNotes, hf]
    · simp [fetchNotes, hf]
  · have hreg : ("regular" : String) ∉ allowedFilters := by decide
    simp [fetchNotes, hreg]
  · intro f hf
    have hlist : allowedFilters = ["pinned", "archived", "deleted", ""] := rfl
    rw [hlist] at hf
    have hf4 : f = "pinned" ∨ f = "archived" ∨ f = "deleted" ∨ f = "" := by
      simpa using hf
    rcases hf4 with h | h | h | h <;> subst h <;>
      simp [matchesQuery, buildCategoryFilter, huser, hp, ha, hd]

theorem fetchNotes_filter_policy_witness :
    fetchNotes "regular" 1 [exRegularA] = Except.error Err.invalidFilter ∧
    (matchesQuery (buildCategoryFilter "" 1) exRegularA = true ↔ ("" : String) = "") ∧
    (matchesQuery (buildCategoryFilter "pinned" 1) exRegularA = true ↔
      ("pinned" : String) = "") := by
  have h := fetchNotes_filter_policy 1 [exRegularA] exRegularA rfl rfl rfl rfl
  exact ⟨h.2.1, h.2.2 "" (by decide), h.2.2 "pinned" (by decide)⟩

end SnipKeep
